import Mathlib

/-!
Shallow embedding of the mango-tree classifier front end
(`src/src/App.js`, with earlier revisions in `src/unnamed/part_000` and
`src/unnamed/part_001`).  The component keeps three pieces of state the
claims are about: `imageResults` (the record store), `duplicatePairs`
(candidate duplicate pairs from the backend) and `error` (the surfaced
error message).  JavaScript values used as identifiers are either numbers
or strings; the code normalizes them with `String(...)` before comparing.
Network effects are modelled by passing the fetch outcome as an explicit
argument, and `URL.revokeObjectURL` calls are modelled by returning the
list of released preview URLs.
-/

/-- A JavaScript value used as an identifier: the upload path creates
numeric ids (`Date.now() + Math.random()`), the backend echoes them back
as strings. -/
inductive JSVal where
  | num (n : Nat)
  | str (s : String)
deriving Repr, DecidableEq

/-- `String(v)` — JavaScript string coercion, used by every identifier
comparison in `removeImageResult` and the pair-rendering lookup. -/
def jsString : JSVal → String
  | .num n => toString n
  | .str s => s

/-- One entry of a prediction list (`{className, probability}`). -/
structure Prediction where
  className : String
  probability : Rat
deriving Repr, DecidableEq

/-- Decimal-degree GPS coordinates (`{latitude, longitude}`). -/
structure Coordinates where
  latitude : Rat
  longitude : Rat
deriving Repr, DecidableEq

/-- An element of `imageResults`: the record built in `handleFileUpload`
(`{id, file, imageUrl, predictions, timestamp, location}`); the file blob
is represented by its name. -/
structure ImageRecord where
  id : JSVal
  fileName : String
  imageUrl : String
  predictions : List Prediction
  timestamp : String
  location : Option Coordinates
deriving Repr, DecidableEq

/-- An element of `duplicatePairs` as returned by `/check-proximity`
(`{pairId, imageId1, imageId2, distance}`). -/
structure DuplicatePair where
  pairId : JSVal
  imageId1 : JSVal
  imageId2 : JSVal
  distance : Option Rat
deriving Repr, DecidableEq

/-- The component state the claims are about: `imageResults`,
`duplicatePairs` and the `error` message (empty string = no error,
matching the empty-string initial state). -/
structure AppState where
  imageResults : List ImageRecord
  duplicatePairs : List DuplicatePair
  error : String
deriving Repr, DecidableEq

/-- `convertDMSToDD(degrees, minutes, seconds, direction)` from
`src/src/App.js` lines 44-50: `dd = degrees + minutes/60 + seconds/(60*60)`,
multiplied by `-1` when `direction` is `"S"` or `"W"`. -/
def convertDMSToDD (degrees minutes seconds : Rat) (direction : String) : Rat :=
  let dd := degrees + minutes / 60 + seconds / (60 * 60)
  if direction = "S" ∨ direction = "W" then dd * (-1) else dd

/-- A degrees/minutes/seconds triple as stored in the EXIF GPS tags. -/
structure DMS where
  degrees : Rat
  minutes : Rat
  seconds : Rat
deriving Repr, DecidableEq

/-- The four EXIF GPS tags `extractGPSFromExif` reads, each `none` when
the tag is absent from the file, plus a flag modelling the EXIF library
throwing while the tags are read (the `try`/`catch` in App.js lines
56-78 turns such a failure into `resolve(null)`). -/
structure ExifData where
  gpsLatitude : Option DMS
  gpsLongitude : Option DMS
  gpsLatitudeRef : Option String
  gpsLongitudeRef : Option String
  readFails : Bool
deriving Repr, DecidableEq

/-- `extractGPSFromExif(file)` from `src/src/App.js` lines 53-81: read the
four GPS tags; when the truthiness check `lat && lon && latRef && lonRef`
passes, convert both triples, otherwise resolve `null`.  The triples are
arrays (always truthy when present); the hemisphere refs are strings, so a
present-but-empty ref string is falsy and also yields `null`.  A thrown
internal failure is caught and resolves `null`. -/
def extractGPSFromExif (e : ExifData) : Option Coordinates :=
  if e.readFails then none
  else
    match e.gpsLatitude, e.gpsLongitude, e.gpsLatitudeRef, e.gpsLongitudeRef with
    | some lat, some lon, some latRef, some lonRef =>
        if latRef.isEmpty ∨ lonRef.isEmpty then none
        else
          some { latitude := convertDMSToDD lat.degrees lat.minutes lat.seconds latRef
                 longitude := convertDMSToDD lon.degrees lon.minutes lon.seconds lonRef }
    | _, _, _, _ => none

/-- C8: `convertDMSToDD` returns `d + m/60 + s/3600`, negated exactly when
the hemisphere is `"S"` or `"W"` and unchanged for every other hemisphere
value; concretely `convertDMSToDD 10 30 0 "N" = 10.5` and
`convertDMSToDD 10 30 0 "S" = -10.5`. -/
theorem convertDMSToDD_spec :
    (∀ (d m s : Rat) (dir : String),
      convertDMSToDD d m s dir =
        if dir = "S" ∨ dir = "W" then -(d + m / 60 + s / 3600)
        else d + m / 60 + s / 3600)
    ∧ convertDMSToDD 10 30 0 "N" = 10.5
    ∧ convertDMSToDD 10 30 0 "S" = -10.5 := by
  refine ⟨fun d m s dir => ?_, ?_, ?_⟩
  case refine_2 => norm_num [convertDMSToDD]; decide
  case refine_3 => norm_num [convertDMSToDD]
  unfold convertDMSToDD
  split <;> ring_nf

/-- C7: whenever one of the four GPS tags is absent (all 15 such
present/absent combinations), or the internal tag read fails,
`extractGPSFromExif` resolves to `none`; it is a total function into
`Option Coordinates`, so it never throws. -/
theorem extractGPSFromExif_absent (e : ExifData)
    (h : e.gpsLatitude = none ∨ e.gpsLongitude = none ∨
         e.gpsLatitudeRef = none ∨ e.gpsLongitudeRef = none ∨ e.readFails = true) :
    extractGPSFromExif e = none := by
  obtain ⟨lat, lon, latRef, lonRef, rf⟩ := e
  cases rf <;> cases lat <;> cases lon <;> cases latRef <;> cases lonRef <;>
    simp_all [extractGPSFromExif]

/-- Witness for C7 at a concrete input: a file with no GPS tags at all. -/
theorem extractGPSFromExif_absent_ex :
    extractGPSFromExif ⟨none, none, none, none, false⟩ = none :=
  extractGPSFromExif_absent ⟨none, none, none, none, false⟩ (Or.inl rfl)

/-- `removeImageResult(id)` from `src/src/App.js` lines 347-360: filter
the record list keeping records whose `String(result.id)` differs from
`String(id)`, revoke the preview URL of the found record (when present),
and filter the pair list keeping pairs where both `String(pair.imageId1)`
and `String(pair.imageId2)` differ from `String(id)`.  The second
component is the list of preview URLs passed to `URL.revokeObjectURL`. -/
def removeImageResult (st : AppState) (id : JSVal) : AppState × List String :=
  let updated := st.imageResults.filter fun r => jsString r.id != jsString id
  let toRemove := st.imageResults.find? fun r => jsString r.id == jsString id
  let revoked := match toRemove with
    | some r => [r.imageUrl]
    | none => []
  let pairs := st.duplicatePairs.filter fun p =>
    (jsString p.imageId1 != jsString id) && (jsString p.imageId2 != jsString id)
  ({ st with imageResults := updated, duplicatePairs := pairs }, revoked)

/-- `clearAllResults()` from `src/src/App.js` lines 363-368: revoke every
record's preview URL, then empty both lists and clear the error. -/
def clearAllResults (st : AppState) : AppState × List String :=
  ({ imageResults := [], duplicatePairs := [], error := "" },
   st.imageResults.map fun r => r.imageUrl)

/-- C1: `removeImageResult st id` keeps exactly the records whose
string-normalized identifier differs from `id` (every such record stays,
every matching record is gone), removes every `DuplicatePair` whose
`imageId1` or `imageId2` matches `id`, keeps every other pair, and when no
record matches it leaves the record list unchanged (a no-op, not an
error). -/
theorem removeImageResult_spec (st : AppState) (id : JSVal) :
    ((removeImageResult st id).1.imageResults
        = st.imageResults.filter fun r => jsString r.id != jsString id)
    ∧ (∀ r ∈ st.imageResults, jsString r.id ≠ jsString id →
        r ∈ (removeImageResult st id).1.imageResults)
    ∧ (∀ r ∈ (removeImageResult st id).1.imageResults,
        r ∈ st.imageResults ∧ jsString r.id ≠ jsString id)
    ∧ (∀ p ∈ st.duplicatePairs,
        (jsString p.imageId1 = jsString id ∨ jsString p.imageId2 = jsString id) →
        p ∉ (removeImageResult st id).1.duplicatePairs)
    ∧ (∀ p ∈ st.duplicatePairs,
        jsString p.imageId1 ≠ jsString id → jsString p.imageId2 ≠ jsString id →
        p ∈ (removeImageResult st id).1.duplicatePairs)
    ∧ ((∀ r ∈ st.imageResults, jsString r.id ≠ jsString id) →
        (removeImageResult st id).1.imageResults = st.imageResults) := by
  have hrec : (removeImageResult st id).1.imageResults
      = st.imageResults.filter (fun r => jsString r.id != jsString id) := rfl
  have hpair : (removeImageResult st id).1.duplicatePairs
      = st.duplicatePairs.filter (fun p =>
          (jsString p.imageId1 != jsString id) && (jsString p.imageId2 != jsString id)) := rfl
  refine ⟨hrec, ?_, ?_, ?_, ?_, ?_⟩
  · intro r hr hne
    rw [hrec]
    exact List.mem_filter.mpr ⟨hr, by simpa using hne⟩
  · intro r hr
    rw [hrec] at hr
    have h := List.mem_filter.mp hr
    exact ⟨h.1, by simpa using h.2⟩
  · intro p _ hid hmem
    rw [hpair] at hmem
    have h := (List.mem_filter.mp hmem).2
    simp only [Bool.and_eq_true, bne_iff_ne, ne_eq] at h
    rcases hid with h1 | h2
    · exact h.1 h1
    · exact h.2 h2
  · intro p hp h1 h2
    rw [hpair]
    exact List.mem_filter.mpr ⟨hp, by simp [h1, h2]⟩
  · intro hall
    rw [hrec]
    exact List.filter_eq_self.mpr fun r hr => by simpa using hall r hr

/-- Witness for C1 at a concrete input: removing an unknown identifier
leaves the single-record store unchanged. -/
theorem removeImageResult_spec_ex :
    (removeImageResult
        ⟨[⟨.num 1, "a.jpg", "blob:a", [], "t", none⟩], [], ""⟩ (.num 2)).1.imageResults
      = [⟨.num 1, "a.jpg", "blob:a", [], "t", none⟩] :=
  (removeImageResult_spec
      ⟨[⟨.num 1, "a.jpg", "blob:a", [], "t", none⟩], [], ""⟩ (.num 2)).2.2.2.2.2
    (by decide)

/-- C2: `clearAllResults` empties the record list and the pair list, and
the revoked-URL list is exactly the preview URL of every record in store
order; when the stored preview URLs are pairwise distinct (as
`URL.createObjectURL` guarantees) each record's URL is revoked exactly
once — no double release and no leak. -/
theorem clearAllResults_spec (st : AppState) :
    (clearAllResults st).1.imageResults = []
    ∧ (clearAllResults st).1.duplicatePairs = []
    ∧ (clearAllResults st).2 = st.imageResults.map (fun r => r.imageUrl)
    ∧ ((st.imageResults.map (fun r => r.imageUrl)).Nodup →
        ∀ r ∈ st.imageResults, ((clearAllResults st).2).count r.imageUrl = 1) := by
  refine ⟨rfl, rfl, rfl, ?_⟩
  intro hnd r hr
  have hmem : r.imageUrl ∈ st.imageResults.map (fun r => r.imageUrl) :=
    List.mem_map_of_mem _ hr
  have heq : (clearAllResults st).2 = st.imageResults.map (fun r => r.imageUrl) := rfl
  rw [heq]
  exact List.count_eq_one_of_mem hnd hmem

/-- Witness for C2 at a concrete input: clearing a two-record store with
distinct preview URLs revokes the first record's URL exactly once. -/
theorem clearAllResults_spec_ex :
    ((clearAllResults
        ⟨[⟨.num 1, "a.jpg", "blob:a", [], "t", none⟩,
          ⟨.num 2, "b.jpg", "blob:b", [], "t", none⟩], [], ""⟩).2).count "blob:a" = 1 :=
  (clearAllResults_spec
      ⟨[⟨.num 1, "a.jpg", "blob:a", [], "t", none⟩,
        ⟨.num 2, "b.jpg", "blob:b", [], "t", none⟩], [], ""⟩).2.2.2
    (by decide) ⟨.num 1, "a.jpg", "blob:a", [], "t", none⟩ (by decide)

/-- C10: identifier matching in `removeImageResult` is string-normalized:
removing by the numeric id and removing by its string form `String(id)`
produce identical states (same record list, same pair list) and the same
revoked URLs, because every comparison goes through `String(...)`. -/
theorem removeImageResult_string_normalized (st : AppState) (n : Nat) :
    removeImageResult st (JSVal.num n)
      = removeImageResult st (JSVal.str (jsString (JSVal.num n))) := rfl

/-- Outcome of an awaited `fetch` call: `ok` (`response.ok`), an HTTP
error response (`!response.ok`, carrying status and statusText), or a
thrown network error caught by the surrounding `try`/`catch`. -/
inductive FetchOutcome where
  | ok
  | httpError (status : Nat) (statusText : String)
  | networkError (message : String)
deriving Repr, DecidableEq

/-- `handleDuplicateAction(pairId, action, imageId1, imageId2)` from
`src/src/App.js` lines 314-344, with the `/save-decision` response passed
explicitly.  On `response.ok`: drop the pair whose `pairId` matches
(strict `!==` comparison), then remove the second record for
`keep_first_remove_second`, the first for `remove_first_keep_second`,
and no record otherwise (`save_both`).  On an HTTP error or a thrown
network error: mutate nothing, set the error message.  The second
component is the list of revoked preview URLs. -/
def handleDuplicateAction (st : AppState) (resp : FetchOutcome)
    (pairId : JSVal) (action : String) (imageId1 imageId2 : JSVal) :
    AppState × List String :=
  match resp with
  | .ok =>
      let st1 := { st with duplicatePairs := st.duplicatePairs.filter fun p => p.pairId != pairId }
      if action = "keep_first_remove_second" then
        removeImageResult st1 imageId2
      else if action = "remove_first_keep_second" then
        removeImageResult st1 imageId1
      else
        (st1, [])
  | .httpError status statusText =>
      ({ st with error := "Failed to save decision: " ++ toString status ++ " " ++ statusText }, [])
  | .networkError message =>
      ({ st with error := "Failed to save decision: " ++ message }, [])

/-- A string starting with the fixed failure prefix is never the empty
string (the empty `error` state means no error is shown). -/
theorem failure_message_ne_empty (t : String) :
    "Failed to save decision: " ++ t ≠ "" := by
  intro h
  have hlen := congrArg String.length h
  rw [String.length_append] at hlen
  have h25 : ("Failed to save decision: " : String).length = 25 := rfl
  have h0 : ("" : String).length = 0 := rfl
  rw [h25, h0] at hlen
  omega

/-- C3: when the `/save-decision` call fails (HTTP error response or
thrown network error), `handleDuplicateAction` leaves the record list and
the pair list exactly as they were, revokes nothing, and surfaces a
non-empty error message to the user. -/
theorem handleDuplicateAction_failure (st : AppState) (resp : FetchOutcome)
    (pairId : JSVal) (action : String) (imageId1 imageId2 : JSVal)
    (h : resp ≠ FetchOutcome.ok) :
    (handleDuplicateAction st resp pairId action imageId1 imageId2).1.imageResults
        = st.imageResults
    ∧ (handleDuplicateAction st resp pairId action imageId1 imageId2).1.duplicatePairs
        = st.duplicatePairs
    ∧ (handleDuplicateAction st resp pairId action imageId1 imageId2).1.error ≠ ""
    ∧ (handleDuplicateAction st resp pairId action imageId1 imageId2).2 = [] := by
  match resp with
  | .ok => exact absurd rfl h
  | .httpError status statusText =>
      exact ⟨rfl, rfl, failure_message_ne_empty (toString status ++ " " ++ statusText), rfl⟩
  | .networkError message =>
      exact ⟨rfl, rfl, failure_message_ne_empty message, rfl⟩

/-- Witness for C3 at a concrete input: a 500 response leaves the
one-record, one-pair store untouched. -/
theorem handleDuplicateAction_failure_ex :
    (handleDuplicateAction
        ⟨[⟨.num 1, "a.jpg", "blob:a", [], "t", none⟩],
         [⟨.str "p1", .num 1, .num 2, some 1⟩], ""⟩
        (.httpError 500 "Internal Server Error")
        (.str "p1") "keep_first_remove_second" (.num 1) (.num 2)).1.duplicatePairs
      = [⟨.str "p1", .num 1, .num 2, some 1⟩] :=
  (handleDuplicateAction_failure
      ⟨[⟨.num 1, "a.jpg", "blob:a", [], "t", none⟩],
       [⟨.str "p1", .num 1, .num 2, some 1⟩], ""⟩
      (.httpError 500 "Internal Server Error")
      (.str "p1") "keep_first_remove_second" (.num 1) (.num 2) (by decide)).2.1

/-- C4: for a store holding records `A`, `B` and the single pair `p`
referencing them, a successful `/save-decision` call resolves the pair:
`keep_first_remove_second` leaves exactly `{A}` and no pairs,
`remove_first_keep_second` leaves exactly `{B}` and no pairs, and
`save_both` drops only the pair, leaving both records. -/
theorem handleDuplicateAction_resolve (A B : ImageRecord) (p : DuplicatePair) (e : String)
    (hAB : jsString A.id ≠ jsString B.id)
    (h1 : jsString p.imageId1 = jsString A.id)
    (h2 : jsString p.imageId2 = jsString B.id) :
    ((handleDuplicateAction ⟨[A, B], [p], e⟩ .ok p.pairId
        "keep_first_remove_second" p.imageId1 p.imageId2).1.imageResults = [A]
      ∧ (handleDuplicateAction ⟨[A, B], [p], e⟩ .ok p.pairId
          "keep_first_remove_second" p.imageId1 p.imageId2).1.duplicatePairs = [])
    ∧ ((handleDuplicateAction ⟨[A, B], [p], e⟩ .ok p.pairId
        "remove_first_keep_second" p.imageId1 p.imageId2).1.imageResults = [B]
      ∧ (handleDuplicateAction ⟨[A, B], [p], e⟩ .ok p.pairId
          "remove_first_keep_second" p.imageId1 p.imageId2).1.duplicatePairs = [])
    ∧ ((handleDuplicateAction ⟨[A, B], [p], e⟩ .ok p.pairId
        "save_both" p.imageId1 p.imageId2).1.imageResults = [A, B]
      ∧ (handleDuplicateAction ⟨[A, B], [p], e⟩ .ok p.pairId
          "save_both" p.imageId1 p.imageId2).1.duplicatePairs = []) := by
  refine ⟨⟨?_, ?_⟩, ⟨?_, ?_⟩, ⟨?_, ?_⟩⟩ <;>
    simp [handleDuplicateAction, removeImageResult, h1, h2, hAB, Ne.symm hAB]

/-- Witness for C4 at concrete records and pair: resolving with
`keep_first_remove_second` leaves exactly the first record. -/
theorem handleDuplicateAction_resolve_ex :
    (handleDuplicateAction
        ⟨[⟨.num 1, "a.jpg", "blob:a", [], "t", none⟩,
          ⟨.num 2, "b.jpg", "blob:b", [], "t", none⟩],
         [⟨.str "p1", .num 1, .num 2, some 1⟩], ""⟩ .ok (.str "p1")
        "keep_first_remove_second" (.num 1) (.num 2)).1.imageResults
      = [⟨.num 1, "a.jpg", "blob:a", [], "t", none⟩] :=
  (handleDuplicateAction_resolve
      ⟨.num 1, "a.jpg", "blob:a", [], "t", none⟩
      ⟨.num 2, "b.jpg", "blob:b", [], "t", none⟩
      ⟨.str "p1", .num 1, .num 2, some 1⟩ ""
      (by decide) (by decide) (by decide)).1.1

/-- One element of the `locations` array posted to `/check-proximity`
(`{imageName, latitude, longitude, imageId}`). -/
structure LocationEntry where
  imageName : String
  latitude : Rat
  longitude : Rat
  imageId : String
deriving Repr, DecidableEq

/-- The payload entry built in `sendImagesToBackend` for one record with
location data (`imageId: String(img.id)`); the `getD` default is never
reached because the caller filters on `img.location !== null` first. -/
def locationEntryOf (img : ImageRecord) : LocationEntry :=
  { imageName := img.fileName
    latitude := (img.location.getD ⟨0, 0⟩).latitude
    longitude := (img.location.getD ⟨0, 0⟩).longitude
    imageId := jsString img.id }

/-- Outcome of the `/check-proximity` call: an `ok` response carrying the
parsed body's `similar_pairs` field (`none` models the field missing from
the JSON, which the `if (data.similar_pairs)` guard skips), an HTTP error
response, or a thrown network error. -/
inductive ProximityOutcome where
  | ok (similarPairs : Option (List DuplicatePair))
  | httpError (status : Nat) (statusText : String)
  | networkError (message : String)
deriving Repr, DecidableEq

/-- A string with a non-empty left part of an append is non-empty. -/
theorem append_left_ne_empty (s t : String) (hs : s.length ≠ 0) : s ++ t ≠ "" := by
  intro he
  have hlen := congrArg String.length he
  rw [String.length_append] at hlen
  have h0 : ("" : String).length = 0 := rfl
  rw [h0] at hlen
  omega

/-- `sendImagesToBackend(images)` from `src/src/App.js` lines 178-223,
with the fetch outcome passed explicitly.  Filter the batch down to the
records with location data; when none remain, return without any network
call (second component `none`).  Otherwise build the `locations` payload
(second component `some payload`, the body of the POST); on `response.ok`
with a `similar_pairs` field replace `duplicatePairs` with it, on an HTTP
error or a thrown network error set the error message (apostrophe of the
source's message elided) and leave the lists alone. -/
def sendImagesToBackend (st : AppState) (images : List ImageRecord)
    (resp : ProximityOutcome) : AppState × Option (List LocationEntry) :=
  let imagesWithLocation := images.filter fun img => img.location.isSome
  if imagesWithLocation.length = 0 then (st, none)
  else
    let locationData := imagesWithLocation.map locationEntryOf
    match resp with
    | .ok similarPairs =>
        match similarPairs with
        | some ps => ({ st with duplicatePairs := ps }, some locationData)
        | none => (st, some locationData)
    | .httpError status statusText =>
        ({ st with error := "Backend error: " ++ toString status ++ " " ++ statusText },
         some locationData)
    | .networkError _ =>
        ({ st with
            error := "Failed to connect to backend. Make sure it is running on localhost:8000" },
         some locationData)

/-- C5: once a proximity check is actually sent (some record in the batch
has coordinates), a successful response carrying `similar_pairs` replaces
the pair list with exactly the returned pairs, whatever was there before;
an HTTP error or a network error leaves the pair list and the record list
untouched and surfaces a non-empty error message. -/
theorem sendImagesToBackend_response (st : AppState) (images : List ImageRecord)
    (hM : images.filter (fun img => img.location.isSome) ≠ []) :
    (∀ ps, (sendImagesToBackend st images (.ok (some ps))).1.duplicatePairs = ps)
    ∧ (∀ status text,
        (sendImagesToBackend st images (.httpError status text)).1.duplicatePairs
            = st.duplicatePairs
        ∧ (sendImagesToBackend st images (.httpError status text)).1.imageResults
            = st.imageResults
        ∧ (sendImagesToBackend st images (.httpError status text)).1.error ≠ "")
    ∧ (∀ msg,
        (sendImagesToBackend st images (.networkError msg)).1.duplicatePairs
            = st.duplicatePairs
        ∧ (sendImagesToBackend st images (.networkError msg)).1.imageResults
            = st.imageResults
        ∧ (sendImagesToBackend st images (.networkError msg)).1.error ≠ "") := by
  have hlen : ¬ (images.filter fun img => img.location.isSome).length = 0 := by
    simpa [List.length_eq_zero] using hM
  refine ⟨?_, ?_, ?_⟩
  · intro ps
    simp [sendImagesToBackend, hlen]
  · intro status text
    refine ⟨by simp [sendImagesToBackend, hlen], by simp [sendImagesToBackend, hlen], ?_⟩
    have hproj : (sendImagesToBackend st images (.httpError status text)).1.error
        = "Backend error: " ++ toString status ++ " " ++ text := by
      simp [sendImagesToBackend, hlen]
    rw [hproj]
    refine append_left_ne_empty _ _ ?_
    rw [String.length_append, String.length_append]
    have h15 : ("Backend error: " : String).length = 15 := rfl
    omega
  · intro msg
    refine ⟨by simp [sendImagesToBackend, hlen], by simp [sendImagesToBackend, hlen], ?_⟩
    have hproj : (sendImagesToBackend st images (.networkError msg)).1.error
        = "Failed to connect to backend. Make sure it is running on localhost:8000" := by
      simp [sendImagesToBackend, hlen]
    rw [hproj]
    decide

/-- Witness for C5 at a concrete input: one geotagged record, response ok
with one returned pair, the pair list becomes exactly that pair. -/
theorem sendImagesToBackend_response_ex :
    (sendImagesToBackend
        ⟨[], [], ""⟩
        [⟨.num 1, "a.jpg", "blob:a", [], "t", some ⟨10, 20⟩⟩]
        (.ok (some [⟨.str "p1", .num 1, .num 2, some 1⟩]))).1.duplicatePairs
      = [⟨.str "p1", .num 1, .num 2, some 1⟩] :=
  (sendImagesToBackend_response ⟨[], [], ""⟩
      [⟨.num 1, "a.jpg", "blob:a", [], "t", some ⟨10, 20⟩⟩]
      (by decide)).1 [⟨.str "p1", .num 1, .num 2, some 1⟩]

/-- C6: the duplicate-check submission sends exactly one payload entry per
record with coordinates — the payload is the image of the
coordinate-filtered batch, so its length is the number M of records with
coordinates, never the batch size N when some record lacks them — and
when no record in the batch has coordinates no network call is made at
all (`none`). -/
theorem sendImagesToBackend_payload (st : AppState) (images : List ImageRecord)
    (resp : ProximityOutcome) :
    ((sendImagesToBackend st images resp).2 = none
        ↔ images.countP (fun img => img.location.isSome) = 0)
    ∧ (∀ payload, (sendImagesToBackend st images resp).2 = some payload →
        payload = (images.filter fun img => img.location.isSome).map locationEntryOf
        ∧ payload.length = images.countP (fun img => img.location.isSome)) := by
  have hcount : images.countP (fun img => img.location.isSome)
      = (images.filter fun img => img.location.isSome).length :=
    (List.countP_eq_length_filter _ _)
  by_cases h0 : (images.filter fun img => img.location.isSome).length = 0
  · constructor
    · simp [sendImagesToBackend, h0, hcount]
    · intro payload hp
      simp [sendImagesToBackend, h0] at hp
  · constructor
    · cases resp with
      | ok sp => cases sp <;> simp [sendImagesToBackend, h0, hcount]
      | httpError status text => simp [sendImagesToBackend, h0, hcount]
      | networkError msg => simp [sendImagesToBackend, h0, hcount]
    · intro payload hp
      have hpayload : payload = (images.filter fun img => img.location.isSome).map
          locationEntryOf := by
        cases resp with
        | ok sp => cases sp <;> simp [sendImagesToBackend, h0] at hp <;> exact hp.symm
        | httpError status text => simp [sendImagesToBackend, h0] at hp; exact hp.symm
        | networkError msg => simp [sendImagesToBackend, h0] at hp; exact hp.symm
      refine ⟨hpayload, ?_⟩
      rw [hpayload, List.length_map, hcount]

/-- Witness for C6 at a concrete input: a batch of two records of which
one carries coordinates sends a one-entry payload. -/
theorem sendImagesToBackend_payload_ex :
    [locationEntryOf ⟨.num 1, "a.jpg", "blob:a", [], "t", some ⟨10, 20⟩⟩]
      = (([⟨.num 1, "a.jpg", "blob:a", [], "t", some ⟨10, 20⟩⟩,
           ⟨.num 2, "b.jpg", "blob:b", [], "t", none⟩] : List ImageRecord).filter
            fun img => img.location.isSome).map locationEntryOf
    ∧ [locationEntryOf ⟨.num 1, "a.jpg", "blob:a", [], "t", some ⟨10, 20⟩⟩].length
      = ([⟨.num 1, "a.jpg", "blob:a", [], "t", some ⟨10, 20⟩⟩,
          ⟨.num 2, "b.jpg", "blob:b", [], "t", none⟩] : List ImageRecord).countP
          fun img => img.location.isSome :=
  (sendImagesToBackend_payload ⟨[], [], ""⟩
      [⟨.num 1, "a.jpg", "blob:a", [], "t", some ⟨10, 20⟩⟩,
       ⟨.num 2, "b.jpg", "blob:b", [], "t", none⟩] (.ok (some []))).2
    [locationEntryOf ⟨.num 1, "a.jpg", "blob:a", [], "t", some ⟨10, 20⟩⟩] rfl

/-- The `duplicatePairs.map` render loop from `src/src/App.js` lines
507-511: for each pair look up both referenced records by
string-normalized id with `find`; when either lookup fails the callback
returns `null` (the pair contributes nothing to the output), otherwise
the pair is rendered together with the two records. -/
def renderedPairs (st : AppState) : List (DuplicatePair × ImageRecord × ImageRecord) :=
  st.duplicatePairs.filterMap fun pair =>
    match st.imageResults.find? (fun img => jsString img.id == jsString pair.imageId1),
          st.imageResults.find? (fun img => jsString img.id == jsString pair.imageId2) with
    | some image1, some image2 => some (pair, image1, image2)
    | _, _ => none

/-- C9: a pair one of whose referenced identifiers matches no record in
the record list is silently skipped — it contributes nothing to the
rendered output — and conversely every rendered entry carries two records
from the record list whose string-normalized ids match the pair's two
references. -/
theorem renderedPairs_spec (st : AppState) :
    (∀ pair ∈ st.duplicatePairs,
      ((∀ img ∈ st.imageResults, jsString img.id ≠ jsString pair.imageId1)
        ∨ (∀ img ∈ st.imageResults, jsString img.id ≠ jsString pair.imageId2)) →
      pair ∉ (renderedPairs st).map Prod.fst)
    ∧ (∀ x ∈ renderedPairs st,
        x.1 ∈ st.duplicatePairs
        ∧ x.2.1 ∈ st.imageResults ∧ jsString x.2.1.id = jsString x.1.imageId1
        ∧ x.2.2 ∈ st.imageResults ∧ jsString x.2.2.id = jsString x.1.imageId2) := by
  constructor
  · intro pair _ h hmem
    obtain ⟨x, hx, hfst⟩ := List.mem_map.mp hmem
    obtain ⟨q, hq, hf⟩ := List.mem_filterMap.mp hx
    rcases hfind1 : st.imageResults.find? fun img => jsString img.id == jsString q.imageId1 with
      _ | i1 <;>
      rcases hfind2 : st.imageResults.find? fun img => jsString img.id == jsString q.imageId2 with
        _ | i2 <;>
      rw [hfind1, hfind2] at hf <;> try exact Option.noConfusion hf
    have hxq : x = (q, i1, i2) := (Option.some.injEq _ _).mp hf |>.symm
    have hq' : q = pair := by rw [← hfst, hxq]
    subst hq'
    rcases h with h | h
    · have hm := List.find?_some hfind1
      have := h i1 (List.mem_of_find?_eq_some hfind1)
      exact this (by simpa using hm)
    · have hm := List.find?_some hfind2
      have := h i2 (List.mem_of_find?_eq_some hfind2)
      exact this (by simpa using hm)
  · intro x hx
    obtain ⟨q, hq, hf⟩ := List.mem_filterMap.mp hx
    rcases hfind1 : st.imageResults.find? fun img => jsString img.id == jsString q.imageId1 with
      _ | i1 <;>
      rcases hfind2 : st.imageResults.find? fun img => jsString img.id == jsString q.imageId2 with
        _ | i2 <;>
      rw [hfind1, hfind2] at hf <;> try exact Option.noConfusion hf
    have hxq : x = (q, i1, i2) := (Option.some.injEq _ _).mp hf |>.symm
    subst hxq
    refine ⟨hq, List.mem_of_find?_eq_some hfind1, ?_,
        List.mem_of_find?_eq_some hfind2, ?_⟩
    · simpa using List.find?_some hfind1
    · simpa using List.find?_some hfind2

/-- Witness for C9 at a concrete input: a pair whose second reference is
dangling is not rendered from a one-record, one-pair state. -/
theorem renderedPairs_spec_ex :
    (⟨.str "p1", .num 1, .num 2, some 1⟩ : DuplicatePair) ∉
      (renderedPairs
        ⟨[⟨.num 1, "a.jpg", "blob:a", [], "t", none⟩],
         [⟨.str "p1", .num 1, .num 2, some 1⟩], ""⟩).map Prod.fst :=
  (renderedPairs_spec
      ⟨[⟨.num 1, "a.jpg", "blob:a", [], "t", none⟩],
       [⟨.str "p1", .num 1, .num 2, some 1⟩], ""⟩).1
    ⟨.str "p1", .num 1, .num 2, some 1⟩ (by decide) (Or.inr (by decide))
